import Mathlib

/-!
# Shallow embedding of the order-lifecycle core of `fastapi-vendas`

This file embeds the order lifecycle service (`src/services/order_service.py`),
the order schemas (`src/schemas/order.py`), the notification dispatcher
(`src/notifications/*.py`) and the slice of the product service needed for the
price-snapshot claims, and proves properties about them.

Modelling conventions:
* SQLAlchemy rows become Lean structures; the persistent database is a `DB`
  record of lists of rows.  Python `int` is `Int`/`Nat`, Python `float` prices
  are embedded as exact integers (`Int`, e.g. prices in cents): every claim here
  is about the exact arithmetic of the pricing algorithm, and IEEE-754
  rounding behaviour is outside the scope of this embedding.
* The per-request SQLAlchemy session is modelled by explicit state passing:
  a service call takes the committed `DB` and returns `Except HError (DB × _)`;
  a returned `.ok` carries the state as of the single `commit()` at the end of
  the call, while a raised `HTTPException` is `.error` and, per the `get_db`
  dependency in `database.py` (`except: rollback; raise`), leaves the committed
  database unchanged (captured by `runCreate` below).
* `select(X).where(X.id == i)` + `scalar_one_or_none()` becomes `List.find?`.
* `datetime` values are abstracted as `Int` timestamps (only `≤` is used).
-/

namespace FastapiVendas

/-- `fastapi.HTTPException(status_code, detail)` as raised by the services. -/
structure HError where
  status : Nat
  detail : String
deriving Repr, DecidableEq

/-- `HTTPException(status_code=HTTPStatus.NOT_FOUND, detail=d)`. -/
def notFound (d : String) : HError := ⟨404, d⟩

/-- `HTTPException(status_code=HTTPStatus.BAD_REQUEST, detail=d)`. -/
def badRequest (d : String) : HError := ⟨400, d⟩

/-- `src/models/product.py` — the `Product` row (the columns the order core
reads: identity, name, unit price, stock level, section tag). -/
structure Product where
  id : Nat
  name : String
  price : Int
  stock_quantity : Int
  sectionName : String
deriving Repr, DecidableEq

/-- `src/models/client.py` — a `Client` row; the order core only ever needs
its identity (existence checks). -/
structure Client where
  id : Nat
deriving Repr, DecidableEq

/-- `src/models/user.py` — the authenticated actor; the order core only reads
`user.id`. -/
structure User where
  id : Nat
deriving Repr, DecidableEq

/-- `src/models/order.py` — the `OrderItem` row: product reference, quantity
and the unit-price snapshot `price_at_time_of_purchase`. -/
structure OrderItem where
  product_id : Nat
  quantity : Int
  price_at_time_of_purchase : Int
deriving Repr, DecidableEq

/-- `src/models/order.py` — the `Order` row together with its owned
`OrderItem` rows (`items` relationship, cascade delete-orphan). -/
structure Order where
  id : Nat
  client_id : Nat
  created_by_user_id : Nat
  status : String
  total : Int
  created_at : Int
  items : List OrderItem
deriving Repr, DecidableEq

/-- The committed relational store: the three tables the order core touches,
plus the order primary-key sequence. -/
structure DB where
  clients : List Client
  products : List Product
  orders : List Order
  nextOrderId : Nat
deriving Repr, DecidableEq

/-- `select(Product).where(Product.id == pid)` + `scalar_one_or_none()`. -/
def DB.findProduct (db : DB) (pid : Nat) : Option Product :=
  db.products.find? (fun p => p.id == pid)

/-- `select(Order).where(Order.id == oid)` + `scalar_one_or_none()`. -/
def DB.findOrder (db : DB) (oid : Nat) : Option Order :=
  db.orders.find? (fun o => o.id == oid)

/-- In-session mutation `product.stock_quantity = s` of the product row with
id `pid` (primary-keyed, so at most one row is affected in any reachable DB). -/
def updateStock (products : List Product) (pid : Nat) (s : Int) : List Product :=
  products.map (fun p => if p.id == pid then { p with stock_quantity := s } else p)

/-- `src/schemas/order.py` — `OrderItemSchema`: one requested line. -/
structure OrderItemSchema where
  product_id : Nat
  quantity : Int
deriving Repr, DecidableEq

/-- `src/schemas/order.py` — `OrderCreate`: the `POST /orders` request body. -/
structure OrderCreate where
  client_id : Nat
  items : List OrderItemSchema
deriving Repr, DecidableEq

/-- `src/schemas/order.py` — `OrderUpdate`: the `PUT /orders/{id}` body;
only `status` exists, and an absent field is `none` (pydantic
`exclude_unset`). -/
structure OrderUpdate where
  status : Option String
deriving Repr, DecidableEq

/-- `OrderItemSchema.validate_quantity`: rejects non-positive quantities and
quantities above 1000. -/
def validate_quantity (v : Int) : Except String Int :=
  if v ≤ 0 then .error "A quantidade deve ser maior que zero"
  else if v > 1000 then .error "A quantidade não pode ser maior que 1000"
  else .ok v

/-- Pydantic runs `validate_quantity` on every item of `OrderCreate.items`;
the first failing item aborts validation. -/
def validateItems : List OrderItemSchema → Except String Unit
  | [] => .ok ()
  | it :: rest =>
    match validate_quantity it.quantity with
    | .error m => .error m
    | .ok _ => validateItems rest

/-- `OrderCreate` validation: `min_items=1` on `items`, per-item
`validate_quantity`, and `validate_unique_products` (no duplicate
`product_id`, checked in Python by comparing the list length with the length
of the corresponding set). -/
def validateOrderCreate (oc : OrderCreate) : Except String OrderCreate :=
  if oc.items.length < 1 then
    .error "ensure this value has at least 1 items"
  else
    match validateItems oc.items with
    | .error m => .error m
    | .ok _ =>
      if (oc.items.map (fun it => it.product_id)).Nodup then .ok oc
      else .error "Não é permitido repetir o mesmo produto no pedido"

/-- Detail string of the insufficient-stock `HTTPException` raised at
`order_service.py:64`:
`f"Estoque insuficiente para o produto {product.name}. Disponível: {product.stock_quantity}"`. -/
def insufficientStockDetail (name : String) (available : Int) : String :=
  "Estoque insuficiente para o produto " ++ name ++ ". Disponível: " ++ toString available

/-- Detail string of the product-not-found `HTTPException` raised at
`order_service.py:60`. -/
def productNotFoundDetail (pid : Nat) : String :=
  "Produto com ID " ++ toString pid ++ " não encontrado."

/-- The `for item_data in order.items` loop of `OrderService.create_order`
(`order_service.py:53-83`), acting on the session's working copy of the
product table.  `sess` is the current product state, `acc` the `OrderItem`
instances built so far (most recent first), `total` the running
`total_amount`.  On success it returns the final product state, the
constructed lines in request order, and the order total. -/
def createOrderLoop (sess : List Product) (acc : List OrderItem) (total : Int) :
    List OrderItemSchema → Except HError (List Product × List OrderItem × Int)
  | [] => .ok (sess, acc.reverse, total)
  | it :: rest =>
    match sess.find? (fun p => p.id == it.product_id) with
    | none => .error (notFound (productNotFoundDetail it.product_id))
    | some product =>
      if product.stock_quantity < it.quantity then
        .error (badRequest (insufficientStockDetail product.name product.stock_quantity))
      else
        createOrderLoop
          (updateStock sess it.product_id (product.stock_quantity - it.quantity))
          ({ product_id := it.product_id, quantity := it.quantity,
             price_at_time_of_purchase := product.price } :: acc)
          (total + product.price * it.quantity)
          rest

namespace OrderService

/-- `OrderService.create_order` (`order_service.py:33-93`), up to and
including the single `commit()`.  The new `Order` starts as
`status="pending"`, `total=0`, owned by `created_by_user`; the item loop runs
on the session; only if every line validates is the whole session state —
order, all lines, decremented stock — committed.  A raised `HTTPException`
is `.error` and commits nothing.  Note: the method never queries the
`Client` table.  The post-commit notification step is modelled separately in
`create_order_full`. -/
def create_order (db : DB) (order : OrderCreate) (created_by_user : User) (now : Int) :
    Except HError (DB × Order) :=
  match createOrderLoop db.products [] 0 order.items with
  | .error e => .error e
  | .ok (products', lines, total_amount) =>
    let db_order : Order :=
      { id := db.nextOrderId
        client_id := order.client_id
        created_by_user_id := created_by_user.id
        status := "pending"
        total := total_amount
        created_at := now
        items := lines }
    .ok ({ db with products := products'
                   orders := db.orders ++ [db_order]
                   nextOrderId := db.nextOrderId + 1 }, db_order)

end OrderService

/-- The `get_db` dependency of `database.py` around a create call: on a raised
exception the session is rolled back, so the committed store is unchanged;
on success the store produced by the service's `commit()` stands. -/
def runCreate (db : DB) (order : OrderCreate) (u : User) (now : Int) :
    DB × Except HError Order :=
  match OrderService.create_order db order u now with
  | .error e => (db, .error e)
  | .ok (db', o) => (db', .ok o)

/-- HTTP-level failure of `POST /orders`: either a pydantic validation error
(422, produced before any service code runs) or a service `HTTPException`. -/
inductive ApiError where
  | validation (msg : String)
  | http (e : HError)
deriving Repr, DecidableEq

/-- `create_order_endpoint` (`order_controller.py:18-97`): FastAPI first
validates the body against `OrderCreate`; only a valid body reaches
`OrderService.create_order`. -/
def create_order_endpoint (db : DB) (client_id : Nat) (items : List OrderItemSchema)
    (current_user : User) (now : Int) : Except ApiError (DB × Order) :=
  match validateOrderCreate { client_id := client_id, items := items } with
  | .error m => .error (.validation m)
  | .ok oc =>
    match OrderService.create_order db oc current_user now with
    | .error e => .error (.http e)
    | .ok r => .ok r

/-- The optional filters of `OrderService.get_orders`
(`order_service.py:107-118`); `none` means "query parameter not supplied". -/
structure OrderFilters where
  client_id : Option Nat := none
  order_id : Option Nat := none
  status : Option String := none
  sectionName : Option String := none
  start_date : Option Int := none
  end_date : Option Int := none
deriving Repr, DecidableEq

/-- The WHERE clause assembled at `order_service.py:137-159`, except for the
section condition (which lives on the joined product): ownership scoping plus
each supplied filter, combined with AND. -/
def orderMatchesBase (u : User) (f : OrderFilters) (o : Order) : Bool :=
  o.created_by_user_id == u.id
  && (match f.client_id with | none => true | some c => o.client_id == c)
  && (match f.order_id with | none => true | some i => o.id == i)
  && (match f.status with | none => true | some s => o.status == s)
  && (match f.start_date with | none => true | some d => d ≤ o.created_at)
  && (match f.end_date with | none => true | some d => o.created_at ≤ d)

/-- The row set of the section-filtered query
(`query.join(OrderItem).join(Product)` + `Product.section == section`,
`order_service.py:153-155`): one row per order line whose product is in the
section, for each base-matching order — the join duplicates an order once per
matching line. -/
def sectionRows (db : DB) (u : User) (f : OrderFilters) (s : String) : List Order :=
  (db.orders.filter (orderMatchesBase u f)).flatMap (fun o =>
    o.items.filterMap (fun it =>
      match db.findProduct it.product_id with
      | some p => if p.sectionName == s then some o else none
      | none => none))

/-- SQL `DISTINCT` over the selected order rows (keeps the first occurrence
of each order identity). -/
def distinctOrders (rows : List Order) : List Order :=
  rows.foldl (fun acc o => if acc.contains o then acc else acc ++ [o]) []

namespace OrderService

/-- `OrderService.get_orders` (`order_service.py:107-189`).  The total count
(`order_service.py:164-170`) is computed from the query *before*
`.distinct()` is appended at line 182: with a section filter it counts the
rows of the joined query (`func.count(Order.id)` over the non-distinct
subquery), one per matching line; without a join it counts the base rows.
The page itself is the `DISTINCT` row set with OFFSET `skip` and LIMIT
`limit`. -/
def get_orders (db : DB) (created_by_user : User) (skip limit : Nat)
    (f : OrderFilters) : List Order × Nat :=
  match f.sectionName with
  | none =>
    let rows := db.orders.filter (orderMatchesBase created_by_user f)
    (((distinctOrders rows).drop skip).take limit, rows.length)
  | some s =>
    let rows := sectionRows db created_by_user f s
    (((distinctOrders rows).drop skip).take limit, rows.length)

/-- `OrderService.get_order_by_id` (`order_service.py:191-211`): select the
order whose id is `order_id` *and* whose `created_by_user_id` is the caller's
id; `None` when the order does not exist or belongs to another actor. -/
def get_order_by_id (db : DB) (order_id : Nat) (created_by_user : User) : Option Order :=
  db.orders.find? (fun o => o.id == order_id && o.created_by_user_id == created_by_user.id)

/-- `OrderService.update_order` (`order_service.py:213-249`): the order is
fetched by id alone (no ownership condition); absent → 404.  The fields set
in the `OrderUpdate` body (only `status` exists) are applied and committed;
the method then re-fetches through the ownership-scoped `get_order_by_id`
and returns that result (possibly `None`). -/
def update_order (db : DB) (order_id : Nat) (order_update_data : OrderUpdate)
    (created_by_user : User) : Except HError (DB × Option Order) :=
  match db.findOrder order_id with
  | none => .error (notFound "Pedido não encontrado")
  | some _ =>
    let db' : DB :=
      { db with orders := db.orders.map (fun o =>
          if o.id == order_id then
            match order_update_data.status with
            | none => o
            | some s => { o with status := s }
          else o) }
    .ok (db', get_order_by_id db' order_id created_by_user)

/-- The stock-restore loop of `OrderService.delete_order`
(`order_service.py:275-280`): for each copied line, look the product up and
add the line's quantity back to its stock (lines whose product no longer
exists are skipped). -/
def restoreStock (db : DB) : List OrderItem → DB
  | [] => db
  | it :: rest =>
    match db.findProduct it.product_id with
    | none => restoreStock db rest
    | some p =>
      let products' := updateStock db.products it.product_id (p.stock_quantity + it.quantity)
      restoreStock { db with products := products' } rest

/-- `OrderService.delete_order` (`order_service.py:251-283`): ownership-scoped
fetch (404 when absent or foreign), copy of the line rows *before* the
cascade delete (`order_items_copy = list(order.items)`), deletion of the
order (cascading its lines), stock restoration from the copy, single
commit. -/
def delete_order (db : DB) (order_id : Nat) (created_by_user : User) :
    Except HError (DB × Order) :=
  match get_order_by_id db order_id created_by_user with
  | none => .error (notFound "Pedido não encontrado")
  | some order =>
    let order_items_copy := order.items
    let db1 : DB := { db with orders := db.orders.filter (fun o => !(o.id == order_id)) }
    .ok (restoreStock db1 order_items_copy, order)

end OrderService

/-- `get_order_by_id_endpoint` (`order_controller.py:190-249`): a `None` from
the service becomes `HTTPException(404, "Pedido não encontrado")`. -/
def get_order_by_id_endpoint (db : DB) (order_id : Nat) (current_user : User) :
    Except HError Order :=
  match OrderService.get_order_by_id db order_id current_user with
  | none => .error (notFound "Pedido não encontrado")
  | some o => .ok o

/-- Outcome of one notification attempt as observed by the caller of the
channel: either the email went out, or the failure was caught and printed
(`except Exception as e: print(f"Falha ao enviar email: {e}")`). -/
inductive SendLog where
  | sent
  | failureLogged (msg : String)
deriving Repr, DecidableEq

/-- `EmailNotificationChannel.send_notification`
(`src/notifications/email_channel.py`): the whole SMTP interaction runs
inside `_send_sync_email`, whose body is one `try/except Exception` that
logs any failure — the coroutine itself always returns normally.  `smtp` is
the outcome of the underlying SMTP send. -/
def EmailNotificationChannel.send_notification (smtp : Except String Unit) : SendLog :=
  match smtp with
  | .ok _ => .sent
  | .error e => .failureLogged ("Falha ao enviar email: " ++ e)

/-- `NotificationService.send_order_creation_notification`
(`src/notifications/notification_service.py:12-21`): gathers the single
email channel's send; its result is the channel's logged outcome. -/
def NotificationService.send_order_creation_notification (smtp : Except String Unit) : SendLog :=
  EmailNotificationChannel.send_notification smtp

/-- `OrderService.create_order` including the post-commit notification step
(`order_service.py:96-99`): the dispatcher is invoked only after the commit
succeeded, and its outcome is returned alongside the committed state. -/
def OrderService.create_order_full (db : DB) (order : OrderCreate)
    (created_by_user : User) (now : Int) (smtp : Except String Unit) :
    Except HError (DB × Order × SendLog) :=
  match OrderService.create_order db order created_by_user now with
  | .error e => .error e
  | .ok (db', o) =>
    .ok (db', o, NotificationService.send_order_creation_notification smtp)

/-- The price branch of `update_product` (`src/services/product_service.py:
115-127`): resolve the product (404 otherwise) and overwrite its unit price;
no other table is touched. -/
def update_product_price (db : DB) (pid : Nat) (newPrice : Int) : Except HError DB :=
  match db.findProduct pid with
  | none => .error (notFound "Produto não encontrado")
  | some _ =>
    .ok { db with products := db.products.map (fun p =>
            if p.id == pid then { p with price := newPrice } else p) }

/-- Monetary value of one order line: `price_at_time_of_purchase * quantity`
(`item_total = price_at_time * item_data.quantity`, `order_service.py:68`). -/
def lineAmount (l : OrderItem) : Int :=
  l.price_at_time_of_purchase * l.quantity

/-! ## Concrete fixtures used by witnesses and failing-input evaluations -/

/-- Fixture: product 1, price 10, stock 5, section "A". -/
def exProductA : Product := ⟨1, "Caneta", 10, 5, "A"⟩

/-- Fixture: product 2, price 20, stock 3, section "A". -/
def exProductB : Product := ⟨2, "Livro", 20, 3, "A"⟩

/-- Fixture: the only registered client, id 7. -/
def exClient : Client := ⟨7⟩

/-- Fixture: actor A, user id 1. -/
def exUserA : User := ⟨1⟩

/-- Fixture: actor B, user id 2. -/
def exUserB : User := ⟨2⟩

/-- Fixture: initial store — one client, two products, no orders. -/
def exDb : DB := ⟨[exClient], [exProductA, exProductB], [], 100⟩

/-- Fixture: a valid creation request — 2 × product 1 and 1 × product 2. -/
def exReq : OrderCreate := ⟨7, [⟨1, 2⟩, ⟨2, 1⟩]⟩

/-- The order `exReq` creates out of `exDb`: both lines with their price
snapshots, total 2·10 + 1·20 = 40. -/
def exOrder : Order := ⟨100, 7, 1, "pending", 40, 0, [⟨1, 2, 10⟩, ⟨2, 1, 20⟩]⟩

/-- The store after creating `exOrder`: stocks decremented to 3 and 2. -/
def exDbWithOrder : DB :=
  ⟨[exClient], [⟨1, "Caneta", 10, 3, "A"⟩, ⟨2, "Livro", 20, 2, "A"⟩], [exOrder], 101⟩

/-- `exDbWithOrder` after actor B's status update slipped through: the same
store with the order's status overwritten. -/
def exDbCancelled : DB :=
  ⟨[exClient], [⟨1, "Caneta", 10, 3, "A"⟩, ⟨2, "Livro", 20, 2, "A"⟩],
    [{ exOrder with status := "cancelado" }], 101⟩

/-- The order created for the nonexistent client id 999 out of `exDb`. -/
def exOrderNoClient : Order := ⟨100, 999, 1, "pending", 20, 0, [⟨1, 2, 10⟩]⟩

/-- The store committed by the client-999 creation. -/
def exDbNoClient : DB :=
  ⟨[exClient], [⟨1, "Caneta", 10, 3, "A"⟩, exProductB], [exOrderNoClient], 101⟩

/-! ## Claim theorems -/

/-- Claim C3 (failing-input evaluation): `OrderService.create_order` never
queries the `Client` table, so a create call whose `client_id` (999) does not
resolve to any existing client — `exDb` has only client 7 — passes schema
validation, succeeds with 201, commits an order referencing the nonexistent
client, and decrements stock, instead of failing with a 404 `ClientNotFound`
as the spec and the repository's own unit test
(`test_create_order_client_not_found`) require. -/
theorem create_order_succeeds_without_client_check :
    (∀ c ∈ exDb.clients, c.id ≠ 999) ∧
    create_order_endpoint exDb 999 [⟨1, 2⟩] exUserA 0 = .ok (exDbNoClient, exOrderNoClient) ∧
    exOrderNoClient.client_id = 999 ∧
    exDbNoClient.findProduct 1 = some ⟨1, "Caneta", 10, 3, "A"⟩ := by
  refine ⟨by decide, by rfl, rfl, by rfl⟩

/-- Claim C4 (failing-input evaluation): listing `exDbWithOrder` — one order
whose two lines both carry section-"A" products — with `section="A"` returns
the order exactly once in the page, but the total count is 2: the count query
is built from the joined query *before* `.distinct()` is appended
(`order_service.py:164-167` vs `182`), so the total is inflated by
matching-line multiplicity, contradicting the spec and the code's own
comments. -/
theorem get_orders_section_total_not_deduplicated :
    (OrderService.get_orders exDbWithOrder exUserA 0 10 { sectionName := some "A" }).1
      = [exOrder] ∧
    (OrderService.get_orders exDbWithOrder exUserA 0 10 { sectionName := some "A" }).2
      = 2 := by
  exact ⟨by rfl, by rfl⟩

/-- Claim C5 (failing-input evaluation): actor B (user 2) updates order 100,
which belongs to actor A (user 1).  `update_order` fetches the order by id
alone (`order_service.py:233`), so instead of failing with not-found the call
commits the status change to B's requested value and returns `none` (the
ownership-scoped re-fetch finds nothing for B) — a foreign actor can mutate
another actor's order. -/
theorem update_order_commits_foreign_actor_change :
    exOrder.created_by_user_id = exUserA.id ∧
    exUserB.id ≠ exUserA.id ∧
    OrderService.update_order exDbWithOrder 100 ⟨some "cancelado"⟩ exUserB
      = .ok (exDbCancelled, none) ∧
    exDbCancelled.findOrder 100 = some { exOrder with status := "cancelado" } := by
  refine ⟨rfl, by decide, by rfl, by rfl⟩

/-- If some requested line's quantity exceeds 1000, the per-item pydantic
validation fails (on that item, or already on an earlier invalid one). -/
theorem validateItems_error_of_gt_1000 (items : List OrderItemSchema)
    (it : OrderItemSchema) (h : it ∈ items) (hq : 1000 < it.quantity) :
    ∃ m, validateItems items = .error m := by
  induction items with
  | nil => cases h
  | cons a rest ih =>
    rcases List.mem_cons.mp h with rfl | hmem
    · have h0 : ¬ it.quantity ≤ 0 := by omega
      exact ⟨"A quantidade não pode ser maior que 1000",
        by simp [validateItems, validate_quantity, h0, hq]⟩
    · cases hv : validate_quantity a.quantity with
      | error m => exact ⟨m, by simp [validateItems, hv]⟩
      | ok _ =>
        obtain ⟨m, hm⟩ := ih hmem
        exact ⟨m, by simp [validateItems, hv, hm]⟩

/-- Claim C10: any `POST /orders` body containing an item with quantity
greater than 1000 is rejected by `OrderItemSchema.validate_quantity` during
request validation — the endpoint returns a validation error (`422`), the
lifecycle service never runs, and no state is produced. -/
theorem create_order_endpoint_rejects_quantity_above_1000
    (db : DB) (client_id : Nat) (items : List OrderItemSchema) (u : User) (now : Int)
    (it : OrderItemSchema) (hmem : it ∈ items) (hq : 1000 < it.quantity) :
    ∃ m, create_order_endpoint db client_id items u now = .error (.validation m) := by
  obtain ⟨m, hm⟩ := validateItems_error_of_gt_1000 items it hmem hq
  have hlen : ¬ ([] : List OrderItemSchema).length < 1 → False := by simp
  have hne : ¬ items.length < 1 := by
    cases items with
    | nil => cases hmem
    | cons a rest => simp
  exact ⟨m, by simp [create_order_endpoint, validateOrderCreate, hne, hm]⟩

/-- Witness for C10 at the concrete fixture: one item of quantity 1001 is
rejected as a validation error. -/
theorem create_order_endpoint_rejects_quantity_above_1000_witness :
    (⟨1, 1001⟩ : OrderItemSchema) ∈ [(⟨1, 1001⟩ : OrderItemSchema)] ∧
    (1000 : Int) < 1001 ∧
    ∃ m, create_order_endpoint exDb 7 [⟨1, 1001⟩] exUserA 0 = .error (.validation m) :=
  ⟨by decide, by decide,
    create_order_endpoint_rejects_quantity_above_1000 exDb 7 [⟨1, 1001⟩] exUserA 0
      ⟨1, 1001⟩ (by decide) (by decide)⟩

/-- `List.find?` returns exactly the element `o` when `o` is in the list,
satisfies the predicate, and is the only element of the list doing so. -/
theorem find_eq_some_of_unique {α : Type} (p : α → Bool) (l : List α) (o : α)
    (ho : o ∈ l) (hp : p o = true) (hu : ∀ x ∈ l, p x = true → x = o) :
    l.find? p = some o := by
  induction l with
  | nil => cases ho
  | cons a rest ih =>
    by_cases hpa : p a = true
    · rw [List.find?_cons_of_pos _ hpa, hu a (List.mem_cons_self a rest) hpa]
    · have hne : o ≠ a := fun he => hpa (he ▸ hp)
      have homem : o ∈ rest := by
        rcases List.mem_cons.mp ho with he | hm
        · exact absurd he hne
        · exact hm
      rw [List.find?_cons_of_neg _ (by simpa using hpa)]
      exact ih homem (fun x hx hpx => hu x (List.mem_cons_of_mem a hx) hpx)

/-- Claim C6: anti-enumeration of order ids.  If order `o` in the store was
created by actor `a` and actor `b` is a different user, then `GET /orders/{o.id}`
as `b` yields exactly the same 404 `HTTPException` as `GET /orders/{nid}` for
an id `nid` that matches no order at all — the two calls are
indistinguishable — while the owner `a` receives the order. -/
theorem get_order_by_id_anti_enumeration
    (db : DB) (o : Order) (a b : User) (nid : Nat)
    (ho : o ∈ db.orders)
    (hown : o.created_by_user_id = a.id)
    (hb : b.id ≠ a.id)
    (hnodup : (db.orders.map Order.id).Nodup)
    (hnid : ∀ o' ∈ db.orders, o'.id ≠ nid) :
    get_order_by_id_endpoint db o.id b = get_order_by_id_endpoint db nid b ∧
    get_order_by_id_endpoint db o.id b = .error (notFound "Pedido não encontrado") ∧
    get_order_by_id_endpoint db o.id a = .ok o := by
  have hinj : ∀ x ∈ db.orders, ∀ y ∈ db.orders, x.id = y.id → x = y := by
    intro x hx y hy hxy
    exact List.inj_on_of_nodup_map hnodup hx hy hxy
  have hfb : OrderService.get_order_by_id db o.id b = none := by
    apply List.find?_eq_none.mpr
    intro x hx hpx
    have hparts := Bool.and_eq_true_iff.mp hpx
    have hxid : x.id = o.id := eq_of_beq hparts.1
    have hxo : x = o := hinj x hx o ho hxid
    have hown' : x.created_by_user_id = b.id := eq_of_beq hparts.2
    rw [hxo, hown] at hown'
    exact hb hown'.symm
  have hfn : OrderService.get_order_by_id db nid b = none := by
    apply List.find?_eq_none.mpr
    intro x hx hpx
    have hparts := Bool.and_eq_true_iff.mp hpx
    have hxid : x.id = nid := eq_of_beq hparts.1
    exact hnid x hx hxid
  have hfa : OrderService.get_order_by_id db o.id a = some o := by
    apply find_eq_some_of_unique
    · exact ho
    · simp [hown]
    · intro x hx hpx
      have hparts := Bool.and_eq_true_iff.mp hpx
      exact hinj x hx o ho (eq_of_beq hparts.1)
  refine ⟨?_, ?_, ?_⟩
  · simp [get_order_by_id_endpoint, hfb, hfn]
  · simp [get_order_by_id_endpoint, hfb]
  · simp [get_order_by_id_endpoint, hfa]

/-- Witness for C6 at the concrete fixture: order 100 belongs to actor A
(user 1); actor B (user 2) gets the same 404 for id 100 as for the
nonexistent id 555, while actor A gets the order. -/
theorem get_order_by_id_anti_enumeration_witness :
    exOrder ∈ exDbWithOrder.orders ∧
    (get_order_by_id_endpoint exDbWithOrder exOrder.id exUserB
        = get_order_by_id_endpoint exDbWithOrder 555 exUserB ∧
      get_order_by_id_endpoint exDbWithOrder exOrder.id exUserB
        = .error (notFound "Pedido não encontrado") ∧
      get_order_by_id_endpoint exDbWithOrder exOrder.id exUserA = .ok exOrder) :=
  ⟨by decide,
    get_order_by_id_anti_enumeration exDbWithOrder exOrder exUserA exUserB 555
      (by decide) rfl (by decide) (by decide) (by decide)⟩

/-- Claim C7: once `OrderService.create_order` has committed, a failing SMTP
send inside the post-commit notification dispatch is caught and logged by the
email channel; the overall call still returns the committed order and store —
the failure is never surfaced and never rolls the order back. -/
theorem create_order_notification_failure_not_surfaced
    (db db' : DB) (order : OrderCreate) (u : User) (now : Int) (o : Order) (e : String)
    (h : OrderService.create_order db order u now = .ok (db', o)) :
    OrderService.create_order_full db order u now (.error e)
      = .ok (db', o, .failureLogged ("Falha ao enviar email: " ++ e)) := by
  simp [OrderService.create_order_full, h,
    NotificationService.send_order_creation_notification,
    EmailNotificationChannel.send_notification]

/-- Witness for C7 at the concrete fixture: the creation commits, the SMTP
layer fails with "SMTP timeout", and the call still returns the committed
order with the failure merely logged. -/
theorem create_order_notification_failure_not_surfaced_witness :
    OrderService.create_order exDb exReq exUserA 0 = .ok (exDbWithOrder, exOrder) ∧
    OrderService.create_order_full exDb exReq exUserA 0 (.error "SMTP timeout")
      = .ok (exDbWithOrder, exOrder,
          .failureLogged ("Falha ao enviar email: " ++ "SMTP timeout")) :=
  ⟨rfl, create_order_notification_failure_not_surfaced exDb exDbWithOrder exReq exUserA 0
    exOrder "SMTP timeout" rfl⟩

/-- `find?` commutes with mapping a function that does not change the value
of the search predicate on any element. -/
theorem find?_map_of_pred_comm {α : Type} (g : α → α) (p : α → Bool) (l : List α)
    (h : ∀ x, p (g x) = p x) : (l.map g).find? p = (l.find? p).map g := by
  induction l with
  | nil => rfl
  | cons a rest ih =>
    by_cases hpa : p a = true
    · rw [List.map_cons, List.find?_cons_of_pos _ (by rw [h a]; exact hpa),
        List.find?_cons_of_pos _ hpa]
      rfl
    · rw [List.map_cons, List.find?_cons_of_neg _ (by rw [h a]; exact hpa),
        List.find?_cons_of_neg _ hpa, ih]

/-- A stock write to product `pid` does not affect the lookup of a different
product id `q`. -/
theorem find?_updateStock_ne (ps : List Product) (pid q : Nat) (s : Int) (h : q ≠ pid) :
    (updateStock ps pid s).find? (fun p => p.id == q) = ps.find? (fun p => p.id == q) := by
  rw [updateStock, find?_map_of_pred_comm _ _ _ (fun x => by by_cases hx : x.id = pid <;> simp [hx])]
  cases hf : ps.find? (fun p => p.id == q) with
  | none => rfl
  | some x =>
    have hxq : x.id = q := by simpa using (List.find?_some hf)
    have : ¬ x.id = pid := by rw [hxq]; exact h
    simp [this]

/-- A stock write to product `pid` rewrites exactly the looked-up row of
`pid`, setting its stock to the written value. -/
theorem find?_updateStock_self (ps : List Product) (pid : Nat) (s : Int) :
    (updateStock ps pid s).find? (fun p => p.id == pid)
      = (ps.find? (fun p => p.id == pid)).map
          (fun p => { p with stock_quantity := s }) := by
  rw [updateStock, find?_map_of_pred_comm _ _ _ (fun x => by by_cases hx : x.id = pid <;> simp [hx])]
  cases hf : ps.find? (fun p => p.id == pid) with
  | none => rfl
  | some x =>
    have hxp : x.id = pid := by simpa using (List.find?_some hf)
    simp [hxp]

/-- The stock-restore loop never touches any table other than `products`. -/
theorem restoreStock_orders (items : List OrderItem) :
    ∀ db : DB, (OrderService.restoreStock db items).orders = db.orders := by
  induction items with
  | nil => intro db; rfl
  | cons a rest ih =>
    intro db
    simp only [OrderService.restoreStock]
    cases db.findProduct a.product_id with
    | none => exact ih db
    | some p => exact ih _

/-- The stock-restore loop leaves products not referenced by any copied line
untouched. -/
theorem restoreStock_findProduct_ne (items : List OrderItem) :
    ∀ (db : DB) (q : Nat), (∀ it ∈ items, it.product_id ≠ q) →
      (OrderService.restoreStock db items).findProduct q = db.findProduct q := by
  induction items with
  | nil => intro db q _; rfl
  | cons a rest ih =>
    intro db q hq
    have hane : a.product_id ≠ q := hq a (List.mem_cons_self a rest)
    have hrest : ∀ it ∈ rest, it.product_id ≠ q :=
      fun it hit => hq it (List.mem_cons_of_mem a hit)
    simp only [OrderService.restoreStock]
    cases hfind : db.findProduct a.product_id with
    | none => exact ih db q hrest
    | some p =>
      rw [ih _ q hrest]
      show DB.findProduct _ q = db.findProduct q
      rw [DB.findProduct, DB.findProduct]
      exact find?_updateStock_ne db.products a.product_id q _ (fun he => hane he.symm)

/-- For copied lines with pairwise-distinct products, the stock-restore loop
adds each line's quantity back onto exactly that line's product row. -/
theorem restoreStock_findProduct_mem (items : List OrderItem) :
    ∀ (db : DB) (it : OrderItem) (p : Product),
      (items.map (fun l => l.product_id)).Nodup →
      it ∈ items →
      db.findProduct it.product_id = some p →
      (OrderService.restoreStock db items).findProduct it.product_id
        = some { p with stock_quantity := p.stock_quantity + it.quantity } := by
  induction items with
  | nil => intro db it p _ hmem; cases hmem
  | cons a rest ih =>
    intro db it p hnd hmem hfind
    rw [List.map_cons, List.nodup_cons] at hnd
    have hnd' := hnd
    simp only [OrderService.restoreStock]
    rcases List.mem_cons.mp hmem with rfl | hmem'
    · rw [hfind]
      have hnotin : ∀ l ∈ rest, l.product_id ≠ it.product_id := by
        intro l hl he
        exact hnd'.1 (he ▸ List.mem_map_of_mem (fun x => x.product_id) hl)
      rw [restoreStock_findProduct_ne rest _ _ hnotin]
      show DB.findProduct _ _ = _
      rw [DB.findProduct]
      rw [find?_updateStock_self db.products it.product_id _]
      rw [show db.products.find? (fun x => x.id == it.product_id) = some p from hfind]
      rfl
    · have hne : a.product_id ≠ it.product_id := by
        intro he
        exact hnd'.1 (he ▸ List.mem_map_of_mem (fun x => x.product_id) hmem')
      cases hfa : db.findProduct a.product_id with
      | none => exact ih db it p hnd'.2 hmem' hfind
      | some q =>
        apply ih _ it p hnd'.2 hmem'
        show DB.findProduct _ _ = _
        rw [DB.findProduct]
        rw [find?_updateStock_ne db.products a.product_id it.product_id _ (fun he => hne he.symm)]
        exact hfind

/-- Claim C8: a successful `delete_order` call restores, for every copied
line of the deleted order, the corresponding product's stock by exactly that
line's quantity, and afterwards neither the order nor its lines are
retrievable by anyone (the embedding's `delete_order` copies `order.items`
before erasing the order, mirroring `order_items_copy = list(order.items)`
preceding `session.delete(order)` in the source, and restores stock from
that copy). -/
theorem delete_order_restores_stock_and_removes
    (db : DB) (order_id : Nat) (u : User) (db' : DB) (o : Order)
    (h : OrderService.delete_order db order_id u = .ok (db', o))
    (hnd : (o.items.map (fun l => l.product_id)).Nodup)
    (hex : ∀ it ∈ o.items, (db.findProduct it.product_id).isSome) :
    (∀ it ∈ o.items, ∃ p, db.findProduct it.product_id = some p ∧
        db'.findProduct it.product_id
          = some { p with stock_quantity := p.stock_quantity + it.quantity }) ∧
    (∀ v : User, OrderService.get_order_by_id db' order_id v = none) ∧
    db'.findOrder order_id = none := by
  simp only [OrderService.delete_order] at h
  cases hget : OrderService.get_order_by_id db order_id u with
  | none => rw [hget] at h; cases h
  | some o₀ =>
    rw [hget] at h
    have hdb' : OrderService.restoreStock
        { db with orders := db.orders.filter (fun x => !(x.id == order_id)) } o₀.items = db' := by
      injection h with h1
      exact congrArg Prod.fst h1
    have ho : o₀ = o := by
      injection h with h1
      exact congrArg Prod.snd h1
    subst ho
    have hfilterProd :
        (({ db with orders := db.orders.filter (fun x => !(x.id == order_id)) } : DB)).findProduct
          = db.findProduct := rfl
    refine ⟨?_, ?_, ?_⟩
    · intro it hit
      obtain ⟨p, hp⟩ := Option.isSome_iff_exists.mp (hex it hit)
      refine ⟨p, hp, ?_⟩
      rw [← hdb']
      exact restoreStock_findProduct_mem o₀.items _ it p hnd hit hp
    · intro v
      rw [← hdb', OrderService.get_order_by_id, restoreStock_orders]
      apply List.find?_eq_none.mpr
      intro x hx
      have hxmem := List.mem_filter.mp hx
      have hxne : (x.id == order_id) = false := by
        simpa using hxmem.2
      simp [hxne]
    · rw [← hdb', DB.findOrder, restoreStock_orders]
      apply List.find?_eq_none.mpr
      intro x hx
      have hxmem := List.mem_filter.mp hx
      simpa using hxmem.2

/-- Witness for C8 at the concrete fixture: deleting order 100 restores the
two product stocks from 3 and 2 back to 5 and 3, and the order is gone. -/
theorem delete_order_restores_stock_and_removes_witness :
    (∀ it ∈ exOrder.items, (exDbWithOrder.findProduct it.product_id).isSome) ∧
    ((∀ it ∈ exOrder.items, ∃ p, exDbWithOrder.findProduct it.product_id = some p ∧
        (⟨[exClient], [exProductA, exProductB], [], 101⟩ : DB).findProduct it.product_id
          = some { p with stock_quantity := p.stock_quantity + it.quantity }) ∧
      (∀ v : User, OrderService.get_order_by_id
          ⟨[exClient], [exProductA, exProductB], [], 101⟩ 100 v = none) ∧
      (⟨[exClient], [exProductA, exProductB], [], 101⟩ : DB).findOrder 100 = none) :=
  ⟨by decide, delete_order_restores_stock_and_removes exDbWithOrder 100 exUserA
    ⟨[exClient], [exProductA, exProductB], [], 101⟩ exOrder rfl (by decide)
    (by decide)⟩

/-- Effect of a successful item loop on the session's product table:
products outside the request keep their rows, and each requested product's
row is its original one with the stock decremented by the requested
quantity, which the loop verified to be available. -/
theorem createOrderLoop_ok_stock (items : List OrderItemSchema) :
    ∀ (sess : List Product) (acc : List OrderItem) (total : Int)
      (sess' : List Product) (lines : List OrderItem) (t : Int),
    (items.map (fun it => it.product_id)).Nodup →
    createOrderLoop sess acc total items = .ok (sess', lines, t) →
    (∀ q, (∀ it ∈ items, it.product_id ≠ q) →
        sess'.find? (fun p => p.id == q) = sess.find? (fun p => p.id == q)) ∧
    (∀ it ∈ items, ∃ p, sess.find? (fun x => x.id == it.product_id) = some p ∧
        it.quantity ≤ p.stock_quantity ∧
        sess'.find? (fun x => x.id == it.product_id)
          = some { p with stock_quantity := p.stock_quantity - it.quantity }) := by
  induction items with
  | nil =>
    intro sess acc total sess' lines t _ h
    simp only [createOrderLoop, Except.ok.injEq, Prod.mk.injEq] at h
    obtain ⟨rfl, -, -⟩ := h
    exact ⟨fun q _ => rfl, fun it hit => absurd hit (List.not_mem_nil it)⟩
  | cons a rest ih =>
    intro sess acc total sess' lines t hnd h
    rw [List.map_cons, List.nodup_cons] at hnd
    simp only [createOrderLoop] at h
    split at h
    · cases h
    · rename_i product hfind
      split at h
      · cases h
      · rename_i hstock
        obtain ⟨ha2, hb2⟩ := ih _ _ _ _ _ _ hnd.2 h
        have hneq : ∀ it ∈ rest, it.product_id ≠ a.product_id := by
          intro it hit he
          exact hnd.1 (he ▸ List.mem_map_of_mem (fun x => x.product_id) hit)
        constructor
        · intro q hq
          have hqa : a.product_id ≠ q := hq a (List.mem_cons_self a rest)
          rw [ha2 q (fun it hit => hq it (List.mem_cons_of_mem a hit))]
          exact find?_updateStock_ne sess a.product_id q _ (fun he => hqa he.symm)
        · intro it hit
          rcases List.mem_cons.mp hit with rfl | hmem
          · refine ⟨product, hfind, by omega, ?_⟩
            rw [ha2 it.product_id hneq, find?_updateStock_self,
              show sess.find? (fun x => x.id == it.product_id) = some product from hfind]
            rfl
          · obtain ⟨p, hp1, hp2, hp3⟩ := hb2 it hmem
            have hne : it.product_id ≠ a.product_id := hneq it hmem
            rw [find?_updateStock_ne sess a.product_id it.product_id _ hne] at hp1
            exact ⟨p, hp1, hp2, hp3⟩

/-- A successful item loop appends to the lines built so far one line per
requested item, in request order, each carrying the requested product and
quantity and the price of that product as found in the session the loop
started from. -/
theorem createOrderLoop_ok_lines (items : List OrderItemSchema) :
    ∀ (sess : List Product) (acc : List OrderItem) (total : Int)
      (sess' : List Product) (lines : List OrderItem) (t : Int),
    (items.map (fun it => it.product_id)).Nodup →
    createOrderLoop sess acc total items = .ok (sess', lines, t) →
    ∃ newLines, lines = acc.reverse ++ newLines ∧ newLines.length = items.length ∧
      ∀ (i : Nat) (it : OrderItemSchema), items[i]? = some it →
        ∃ p, sess.find? (fun x => x.id == it.product_id) = some p ∧
          newLines[i]? = some ⟨it.product_id, it.quantity, p.price⟩ := by
  induction items with
  | nil =>
    intro sess acc total sess' lines t _ h
    simp only [createOrderLoop, Except.ok.injEq, Prod.mk.injEq] at h
    obtain ⟨-, hl, -⟩ := h
    exact ⟨[], by rw [← hl, List.append_nil], rfl, fun i it hi => by simp at hi⟩
  | cons a rest ih =>
    intro sess acc total sess' lines t hnd h
    rw [List.map_cons, List.nodup_cons] at hnd
    simp only [createOrderLoop] at h
    split at h
    · cases h
    · rename_i product hfind
      split at h
      · cases h
      · rename_i hstock
        obtain ⟨nl2, hl2, hlen2, hidx2⟩ := ih _ _ _ _ _ _ hnd.2 h
        refine ⟨⟨a.product_id, a.quantity, product.price⟩ :: nl2, ?_, by simp [hlen2], ?_⟩
        · rw [hl2]
          simp [List.append_assoc]
        · intro i it hi
          cases i with
          | zero =>
            rw [List.getElem?_cons_zero] at hi
            cases hi
            exact ⟨product, hfind, by simp⟩
          | succ j =>
            rw [List.getElem?_cons_succ] at hi
            obtain ⟨p, hp1, hp2⟩ := hidx2 j it hi
            have hmem : it ∈ rest := List.getElem?_mem hi
            have hne : it.product_id ≠ a.product_id := fun he =>
              hnd.1 (he ▸ List.mem_map_of_mem (fun x => x.product_id) hmem)
            rw [find?_updateStock_ne sess a.product_id it.product_id _ hne] at hp1
            exact ⟨p, hp1, by simpa using hp2⟩

/-- The running total maintained by the item loop equals the sum of the line
amounts of the lines it has constructed. -/
theorem createOrderLoop_ok_total (items : List OrderItemSchema) :
    ∀ (sess : List Product) (acc : List OrderItem) (total : Int)
      (sess' : List Product) (lines : List OrderItem) (t : Int),
    createOrderLoop sess acc total items = .ok (sess', lines, t) →
    t + (acc.map lineAmount).sum = total + (lines.map lineAmount).sum := by
  induction items with
  | nil =>
    intro sess acc total sess' lines t h
    simp only [createOrderLoop, Except.ok.injEq, Prod.mk.injEq] at h
    obtain ⟨-, hl, ht⟩ := h
    rw [← hl, ← ht, List.map_reverse, List.sum_reverse]
  | cons a rest ih =>
    intro sess acc total sess' lines t h
    simp only [createOrderLoop] at h
    split at h
    · cases h
    · rename_i product hfind
      split at h
      · cases h
      · have hrec := ih _ _ _ _ _ _ h
        simp only [List.map_cons, List.sum_cons, lineAmount] at hrec
        linarith

/-- Claim C1: order creation is all-or-nothing.  If any line of the request
fails validation, the raised `HTTPException` aborts the call before the
single `commit()` and `get_db` rolls the session back, so the committed
store is exactly the original one — in particular, stock decrements already
applied in-session for earlier lines of the same request are not visible
after the failure.  If the call succeeds, the one commit persists the order,
one line per requested item, and every decremented stock level, together. -/
theorem create_order_all_or_nothing
    (db : DB) (order : OrderCreate) (u : User) (now : Int)
    (hnd : (order.items.map (fun it => it.product_id)).Nodup) :
    (∀ e, OrderService.create_order db order u now = .error e →
        runCreate db order u now = (db, .error e)) ∧
    (∀ (db' : DB) (o : Order), OrderService.create_order db order u now = .ok (db', o) →
        runCreate db order u now = (db', .ok o) ∧
        db'.orders = db.orders ++ [o] ∧
        o.items.length = order.items.length ∧
        (∀ it ∈ order.items, ∃ p, db.findProduct it.product_id = some p ∧
            it.quantity ≤ p.stock_quantity ∧
            db'.findProduct it.product_id
              = some { p with stock_quantity := p.stock_quantity - it.quantity })) := by
  constructor
  · intro e he
    rw [runCreate, he]
  · intro db' o hok
    have hrun : runCreate db order u now = (db', .ok o) := by rw [runCreate, hok]
    simp only [OrderService.create_order] at hok
    split at hok
    · cases hok
    · rename_i products' lines total_amount hloop
      injection hok with h2
      rw [Prod.mk.injEq] at h2
      obtain ⟨hdb', ho⟩ := h2
      obtain ⟨hstockA, hstockB⟩ :=
        createOrderLoop_ok_stock order.items db.products [] 0 products' lines total_amount hnd hloop
      obtain ⟨nl, hnl, hnllen, -⟩ :=
        createOrderLoop_ok_lines order.items db.products [] 0 products' lines total_amount hnd hloop
      refine ⟨hrun, ?_, ?_, ?_⟩
      · rw [← hdb', ← ho]
      · rw [← ho]
        show lines.length = order.items.length
        rw [hnl]
        simpa using hnllen
      · intro it hit
        obtain ⟨p, hp1, hp2, hp3⟩ := hstockB it hit
        refine ⟨p, hp1, hp2, ?_⟩
        rw [← hdb']
        exact hp3

/-- Witness for C1 at the concrete fixture: the two-line request on `exDb`
commits `exOrder` with both lines and both stock decrements at once. -/
theorem create_order_all_or_nothing_witness :
    (exReq.items.map (fun it => it.product_id)).Nodup ∧
    ((∀ e, OrderService.create_order exDb exReq exUserA 0 = .error e →
        runCreate exDb exReq exUserA 0 = (exDb, .error e)) ∧
    (∀ (db' : DB) (o : Order), OrderService.create_order exDb exReq exUserA 0 = .ok (db', o) →
        runCreate exDb exReq exUserA 0 = (db', .ok o) ∧
        db'.orders = exDb.orders ++ [o] ∧
        o.items.length = exReq.items.length ∧
        (∀ it ∈ exReq.items, ∃ p, exDb.findProduct it.product_id = some p ∧
            it.quantity ≤ p.stock_quantity ∧
            db'.findProduct it.product_id
              = some { p with stock_quantity := p.stock_quantity - it.quantity }))) :=
  ⟨by decide, create_order_all_or_nothing exDb exReq exUserA 0 (by decide)⟩

/-- If the first line failure the loop meets is an insufficient-stock check
— every earlier line resolves a product with enough stock — the loop raises
the 400 `HTTPException` whose message carries that product's name and its
available quantity. -/
theorem createOrderLoop_first_insufficient (items : List OrderItemSchema) :
    ∀ (sess : List Product) (acc : List OrderItem) (total : Int)
      (i : Nat) (iti : OrderItemSchema) (p : Product),
    (items.map (fun it => it.product_id)).Nodup →
    (∀ j, j < i → ∃ it q, items[j]? = some it ∧
        sess.find? (fun x => x.id == it.product_id) = some q ∧
        it.quantity ≤ q.stock_quantity) →
    items[i]? = some iti →
    sess.find? (fun x => x.id == iti.product_id) = some p →
    p.stock_quantity < iti.quantity →
    createOrderLoop sess acc total items
      = .error (badRequest (insufficientStockDetail p.name p.stock_quantity)) := by
  induction items with
  | nil =>
    intro sess acc total i iti p _ _ hi _ _
    simp at hi
  | cons a rest ih =>
    intro sess acc total i iti p hnd hprev hi hfind hins
    rw [List.map_cons, List.nodup_cons] at hnd
    cases i with
    | zero =>
      rw [List.getElem?_cons_zero] at hi
      cases hi
      simp only [createOrderLoop, hfind, if_pos hins]
    | succ j =>
      obtain ⟨it0, q0, hit0, hfind0, hq0⟩ := hprev 0 (Nat.succ_pos j)
      rw [List.getElem?_cons_zero] at hit0
      cases hit0
      rw [List.getElem?_cons_succ] at hi
      have himem : iti ∈ rest := List.getElem?_mem hi
      have hine : iti.product_id ≠ a.product_id := fun he =>
        hnd.1 (he ▸ List.mem_map_of_mem (fun x => x.product_id) himem)
      simp only [createOrderLoop, hfind0, if_neg (not_lt.mpr hq0)]
      apply ih _ _ _ j iti p hnd.2
      · intro j' hj'
        obtain ⟨it', q', hit', hfind', hq'⟩ := hprev (j' + 1) (by omega)
        rw [List.getElem?_cons_succ] at hit'
        have hmem' : it' ∈ rest := List.getElem?_mem hit'
        have hne' : it'.product_id ≠ a.product_id := fun he =>
          hnd.1 (he ▸ List.mem_map_of_mem (fun x => x.product_id) hmem')
        refine ⟨it', q', hit', ?_, hq'⟩
        rw [find?_updateStock_ne sess a.product_id it'.product_id _ hne']
        exact hfind'
      · exact hi
      · rw [find?_updateStock_ne sess a.product_id iti.product_id _ hine]
        exact hfind
      · exact hins

/-- Claim C2: if every line before index `i` of a (duplicate-free) create
request resolves an in-stock product, and line `i` requests more than its
product `p` has, then `create_order` fails with the 400 insufficient-stock
`HTTPException` whose detail is exactly the message built from `p`'s name
and `p`'s available quantity — which therefore contains both as substrings —
and the rolled-back store is unchanged, so the failed call leaves every
product's stock as it was. -/
theorem create_order_insufficient_stock
    (db : DB) (order : OrderCreate) (u : User) (now : Int)
    (i : Nat) (iti : OrderItemSchema) (p : Product)
    (hnd : (order.items.map (fun it => it.product_id)).Nodup)
    (hprev : ∀ j, j < i → ∃ it q, order.items[j]? = some it ∧
        db.findProduct it.product_id = some q ∧ it.quantity ≤ q.stock_quantity)
    (hi : order.items[i]? = some iti)
    (hp : db.findProduct iti.product_id = some p)
    (hins : p.stock_quantity < iti.quantity) :
    OrderService.create_order db order u now
      = .error (badRequest (insufficientStockDetail p.name p.stock_quantity)) ∧
    runCreate db order u now
      = (db, .error (badRequest (insufficientStockDetail p.name p.stock_quantity))) ∧
    List.IsInfix p.name.data (insufficientStockDetail p.name p.stock_quantity).data ∧
    List.IsInfix (toString p.stock_quantity).data
      (insufficientStockDetail p.name p.stock_quantity).data := by
  have herr : OrderService.create_order db order u now
      = .error (badRequest (insufficientStockDetail p.name p.stock_quantity)) := by
    rw [OrderService.create_order,
      createOrderLoop_first_insufficient order.items db.products [] 0 i iti p hnd hprev hi hp hins]
  refine ⟨herr, by rw [runCreate, herr], ?_, ?_⟩
  · exact ⟨"Estoque insuficiente para o produto ".data,
      (". Disponível: " ++ toString p.stock_quantity).data, by
        simp [insufficientStockDetail, String.data_append]⟩
  · exact ⟨("Estoque insuficiente para o produto " ++ p.name ++ ". Disponível: ").data,
      [], by simp [insufficientStockDetail, String.data_append]⟩

/-- Witness for C2 at the concrete fixture: requesting 4 × product 2 (stock
3) after a satisfiable first line fails with the exact message naming
"Livro" and the available quantity 3, and the store is rolled back. -/
theorem create_order_insufficient_stock_witness :
    ((⟨7, [⟨1, 2⟩, ⟨2, 4⟩]⟩ : OrderCreate).items.map (fun it => it.product_id)).Nodup ∧
    (OrderService.create_order exDb ⟨7, [⟨1, 2⟩, ⟨2, 4⟩]⟩ exUserA 0
        = .error (badRequest (insufficientStockDetail exProductB.name exProductB.stock_quantity)) ∧
      runCreate exDb ⟨7, [⟨1, 2⟩, ⟨2, 4⟩]⟩ exUserA 0
        = (exDb, .error (badRequest
            (insufficientStockDetail exProductB.name exProductB.stock_quantity))) ∧
      List.IsInfix exProductB.name.data
        (insufficientStockDetail exProductB.name exProductB.stock_quantity).data ∧
      List.IsInfix (toString exProductB.stock_quantity).data
        (insufficientStockDetail exProductB.name exProductB.stock_quantity).data) :=
  ⟨by decide,
    create_order_insufficient_stock exDb ⟨7, [⟨1, 2⟩, ⟨2, 4⟩]⟩ exUserA 0 1 ⟨2, 4⟩ exProductB
      (by decide)
      (fun j hj => match j, hj with
        | 0, _ => ⟨⟨1, 2⟩, exProductA, rfl, rfl, by decide⟩)
      rfl rfl (by decide)⟩

/-- Claim C9: for a successful (duplicate-free) creation, the committed
order's total is exactly the sum of `price_at_time_of_purchase * quantity`
over its lines; each line's snapshot is the product's price as stored at the
instant of creation; and a later product price change (`update_product`'s
price branch) leaves the stored orders — hence every snapshot and total —
untouched. -/
theorem create_order_total_and_price_snapshot
    (db : DB) (order : OrderCreate) (u : User) (now : Int) (db' : DB) (o : Order)
    (hnd : (order.items.map (fun it => it.product_id)).Nodup)
    (hok : OrderService.create_order db order u now = .ok (db', o)) :
    o.total = (o.items.map lineAmount).sum ∧
    (∀ (i : Nat) (it : OrderItemSchema), order.items[i]? = some it →
        ∃ p, db.findProduct it.product_id = some p ∧
          o.items[i]? = some ⟨it.product_id, it.quantity, p.price⟩) ∧
    (∀ (pid : Nat) (np : Int) (db2 : DB),
        update_product_price db' pid np = .ok db2 → db2.orders = db'.orders) := by
  simp only [OrderService.create_order] at hok
  split at hok
  · cases hok
  · rename_i products' lines total_amount hloop
    injection hok with h2
    rw [Prod.mk.injEq] at h2
    obtain ⟨hdb', ho⟩ := h2
    have htot := createOrderLoop_ok_total order.items db.products [] 0 products' lines
      total_amount hloop
    obtain ⟨nl, hnl, -, hidx⟩ := createOrderLoop_ok_lines order.items db.products [] 0
      products' lines total_amount hnd hloop
    have hlines : lines = nl := by simpa using hnl
    refine ⟨?_, ?_, ?_⟩
    · rw [← ho]
      show total_amount = (lines.map lineAmount).sum
      simpa using htot
    · intro i it hi
      obtain ⟨p, hp1, hp2⟩ := hidx i it hi
      refine ⟨p, hp1, ?_⟩
      rw [← ho]
      show lines[i]? = _
      rw [hlines]
      exact hp2
    · intro pid np db2 hupd
      rw [update_product_price] at hupd
      split at hupd
      · cases hupd
      · injection hupd with h3
        rw [← h3]

/-- Witness for C9 at the concrete fixture: `exOrder.total = 40 = 2·10 + 1·20`,
both snapshots equal the creation-time prices, and a price change on product
1 leaves the stored order untouched. -/
theorem create_order_total_and_price_snapshot_witness :
    (exReq.items.map (fun it => it.product_id)).Nodup ∧
    (exOrder.total = (exOrder.items.map lineAmount).sum ∧
      (∀ (i : Nat) (it : OrderItemSchema), exReq.items[i]? = some it →
          ∃ p, exDb.findProduct it.product_id = some p ∧
            exOrder.items[i]? = some ⟨it.product_id, it.quantity, p.price⟩) ∧
      (∀ (pid : Nat) (np : Int) (db2 : DB),
          update_product_price exDbWithOrder pid np = .ok db2 →
            db2.orders = exDbWithOrder.orders)) :=
  ⟨by decide,
    create_order_total_and_price_snapshot exDb exReq exUserA 0 exDbWithOrder exOrder
      (by decide) rfl⟩

end FastapiVendas
